import Mathlib

/-!
Shallow embedding of regolith-displayd (src/lib.rs, src/monitor.rs,
src/modes.rs): the display state store, the transform codec, the
`ApplyMonitorsConfig` request flow and the change-watcher iteration.

Modelling conventions:
* Rust `u32` counters and codes become `Nat` (only equality and the
  `0..=7` range test are used, no wrapping arithmetic);
* `f64` scale values become `Rat` (the code only compares them for
  equality via `Vec::contains` and prints them);
* the profile file is modelled as a list of structured `ProfileLine`s,
  one per `writeln!` in the source, and the profile directory as an
  association list from file name to content;
* a Rust panic (`unwrap` / `expect` on `None`/`Err`, out-of-bounds
  index) is modelled as a dedicated `panic` outcome: the function stops
  and the state/filesystem at the moment of death are reported;
* fallible I/O that the code performs (the final `profile_file.write`,
  the sway query in the watcher) is modelled by an explicit input
  (`writeOk : Bool`, `query : Option _`) standing for the outcome the
  environment produced.
-/

namespace RegolithDisplayd

/-- The four-component description tuple `(connector, vendor, product, serial)`
of `Monitor` / `LogicalMonitor` in monitor.rs. -/
structure Description where
  connector : String
  vendor : String
  product : String
  serial : String
deriving DecidableEq, Repr

/-- `ModeProperties` from modes.rs. -/
structure ModeProperties where
  current : Option Bool
  preferred : Option Bool
  interlaced : Option Bool
deriving DecidableEq, Repr

/-- `Modes` from modes.rs. -/
structure Modes where
  id : String
  width : Int
  height : Int
  refreshRate : Rat
  preferredScale : Rat
  supportedScales : List Rat
  properties : ModeProperties
deriving DecidableEq, Repr

/-- `Modes::get_id`. -/
def Modes.getId (m : Modes) : String := m.id

/-- `Modes::get_modestr`. -/
def Modes.getModestr (m : Modes) : String := m.id

/-- `Modes::is_valid_scale`: `self.supported_scales.contains(&scale)`. -/
def Modes.isValidScale (m : Modes) (scale : Rat) : Bool :=
  m.supportedScales.contains scale

/-- `Modes::current`: `self.properties.current == Some(true)`. -/
def Modes.current (m : Modes) : Bool := m.properties.current == some true

/-- `MonitorProperties` from monitor.rs. -/
structure MonitorProperties where
  width : Option Int
  height : Option Int
  underscanning : Option Bool
  builtin : Option Bool
  maxSize : Option (Int × Int)
  name : Option String
deriving DecidableEq, Repr

/-- `Monitor` from monitor.rs. -/
structure Monitor where
  description : Description
  modes : List Modes
  properties : MonitorProperties
deriving DecidableEq, Repr

/-- `Monitor::search_modes`: find a mode by id. -/
def Monitor.searchModes (m : Monitor) (modeId : String) : Option Modes :=
  m.modes.find? (fun md => md.id == modeId)

/-- `Monitor::get_dpy_name`: `"{vendor} {product} {serial}"` (the connector is
deliberately dropped). -/
def Monitor.getDpyName (m : Monitor) : String :=
  m.description.vendor ++ " " ++ m.description.product ++ " " ++ m.description.serial

/-- `Monitor::get_current_mode`. -/
def Monitor.getCurrentMode (m : Monitor) : String :=
  match m.modes.find? (fun md => md.current) with
  | some md => md.getModestr
  | none => "Unknown"

/-- `PartialEq for Monitor` in monitor.rs compares descriptions only. -/
def Monitor.req (a b : Monitor) : Bool := a.description == b.description

/-- `LogicalMonitorProperties` from monitor.rs (dummy fields emulating `a{sv}`). -/
structure LogicalMonitorProperties where
  dummy : Option Int
  dummy2 : Option Bool
deriving DecidableEq, Repr

/-- `LogicalMonitor` from monitor.rs. -/
structure LogicalMonitor where
  xPos : Int
  yPos : Int
  scale : Rat
  transform : Nat
  primary : Bool
  monitors : List Description
  properties : LogicalMonitorProperties
deriving DecidableEq, Repr

/-- `PartialEq for LogicalMonitor`: compares `(x_pos, y_pos, scale, transform)`
only. -/
def LogicalMonitor.req (a b : LogicalMonitor) : Bool :=
  a.xPos == b.xPos && a.yPos == b.yPos && a.scale == b.scale && a.transform == b.transform

/-- `MonitorTransform` from monitor.rs, with the same discriminants 0..7. -/
inductive MonitorTransform
  | normal
  | left
  | down
  | right
  | flipped
  | flippedLeft
  | flippedDown
  | flippedRight
deriving DecidableEq, Repr

/-- The `#[derive(FromPrimitive)]` discriminant of each variant
(`Normal = 0, Left = 1, Down = 2, Right = 3, Flipped = 4, FlippedLeft = 5,
FlippedDown = 6, FlippedRight = 7`). -/
def MonitorTransform.toU32 : MonitorTransform → Nat
  | .normal => 0
  | .left => 1
  | .down => 2
  | .right => 3
  | .flipped => 4
  | .flippedLeft => 5
  | .flippedDown => 6
  | .flippedRight => 7

/-- `MonitorTransform::from_u32` (via `num::FromPrimitive`): inverse of the
discriminant assignment, `None` outside 0..=7. -/
def MonitorTransform.fromU32 : Nat → Option MonitorTransform
  | 0 => some .normal
  | 1 => some .left
  | 2 => some .down
  | 3 => some .right
  | 4 => some .flipped
  | 5 => some .flippedLeft
  | 6 => some .flippedDown
  | 7 => some .flippedRight
  | _ => none

/-- `MonitorTransform::from_sway`. -/
def MonitorTransform.fromSway : Option String → MonitorTransform
  | some s =>
    if s == "90" then .left
    else if s == "180" then .down
    else if s == "270" then .right
    else if s == "flipped" then .flipped
    else if s == "flipped-90" then .flippedLeft
    else if s == "flipped-180" then .flippedDown
    else if s == "flipped-270" then .flippedRight
    else .normal
  | none => .normal

/-- `MonitorTransform::to_sway`. -/
def MonitorTransform.toSway : MonitorTransform → String
  | .normal => "normal"
  | .right => "90"
  | .down => "180"
  | .left => "270"
  | .flipped => "flipped"
  | .flippedRight => "flipped-90"
  | .flippedDown => "flipped-180"
  | .flippedLeft => "flipped-270"

/-- `zbus::fdo::Error` restricted to the constructors the daemon produces. -/
inductive ZError
  | failed (msg : String)
  | invalidArgs (msg : String)
  | ioError (msg : String)
deriving DecidableEq, Repr

instance : DecidableEq (Except ZError Unit) := fun a b =>
  match a, b with
  | Except.ok (), Except.ok () => isTrue rfl
  | Except.ok (), Except.error _ => isFalse (fun h => Except.noConfusion h)
  | Except.error _, Except.ok () => isFalse (fun h => Except.noConfusion h)
  | Except.error x, Except.error y =>
    if h : x = y then isTrue (by rw [h])
    else isFalse (fun hc => h (Except.error.inj hc))

/-- `MonitorApply` from monitor.rs. Each element of `monitors` is
`(connector, mode id, properties)`. -/
structure MonitorApply where
  xPos : Int
  yPos : Int
  scale : Rat
  transform : Nat
  primary : Bool
  monitors : List (String × String × MonitorProperties)
deriving DecidableEq, Repr

/-- The connector `self.monitors[0].0` (the Rust code indexes without a
bounds check; an empty list ends in the same panic as a failed `unwrap`,
which the caller `applyMonitorsConfig` models through the `none` result
of `searchMonitor`). -/
def MonitorApply.connector0 (self : MonitorApply) : Option String :=
  self.monitors.head?.map (fun t => t.1)

/-- The mode reference `self.monitors[0].1`. -/
def MonitorApply.modeRef0 (self : MonitorApply) : String :=
  match self.monitors with
  | [] => ""
  | (_, m, _) :: _ => m

/-- `MonitorApply::search_monitor`: find the store monitor whose connector
(`description.0`) equals `self.monitors[0].0`. -/
def MonitorApply.searchMonitor (self : MonitorApply) (monitors : List Monitor) :
    Option Monitor :=
  match self.monitors with
  | [] => none
  | (connector, _, _) :: _ =>
    monitors.find? (fun mon => mon.description.connector == connector)

/-- `MonitorApply::get_modestr`: look the referenced mode up in `monitor` and
return its mode string. -/
def MonitorApply.getModestr (self : MonitorApply) (monitor : Monitor) : Option String :=
  match monitor.searchModes self.modeRef0 with
  | some x => some x.getModestr
  | none => none

/-- `MonitorApply::save_kanshi`: the one `writeln!` the method performs, or
nothing when the referenced mode does not resolve (the Rust code `return`s
early and silently skips the monitor). An out-of-range transform falls back
to `Normal` (`unwrap_or`). -/
def MonitorApply.saveKanshi (self : MonitorApply) (monitor : Monitor) :
    Option (String × String × Int × Int × String × Rat) :=
  match self.getModestr monitor with
  | none => none
  | some mode =>
    some (monitor.getDpyName, mode, self.xPos, self.yPos,
      ((MonitorTransform.fromU32 self.transform).getD MonitorTransform.normal).toSway,
      self.scale)

/-- `MonitorApply::verify` from monitor.rs (the sway-connection argument is
unused by the source). Check order: monitor resolution, mode-string lookup
(reported as "Invalid position"), mode lookup, scale membership, transform
range. -/
def MonitorApply.verify (self : MonitorApply) (monitors : List Monitor) :
    Except ZError Unit :=
  match self.searchMonitor monitors with
  | none => Except.error (ZError.failed "Monitor not found")
  | some monitor =>
    if (self.getModestr monitor).isNone then
      Except.error (ZError.invalidArgs "Invalid position")
    else
      match monitor.searchModes self.modeRef0 with
      | none => Except.error (ZError.invalidArgs "Invalid resolution / refresh rate")
      | some mode =>
        if !(mode.isValidScale self.scale) then
          Except.error (ZError.invalidArgs "Invalid scale")
        else if (MonitorTransform.fromU32 self.transform).isNone then
          Except.error (ZError.invalidArgs "Invalid tranform")
        else Except.ok ()

/-- `DisplayManagerProperties` from lib.rs. -/
structure DisplayManagerProperties where
  layout : Option Nat
  supportLayoutChange : Option Bool
  globalScale : Option Bool
  legacyScaleFactor : Option Int
deriving DecidableEq, Repr

/-- `DisplayManagerProperties::new`. -/
def DisplayManagerProperties.new : DisplayManagerProperties :=
  { layout := some 1
    supportLayoutChange := some true
    globalScale := some false
    legacyScaleFactor := some 1 }

/-- `DisplayManager` from lib.rs. -/
structure DisplayManager where
  serial : Nat
  monitors : List Monitor
  logicalMonitors : List LogicalMonitor
  properties : DisplayManagerProperties
deriving DecidableEq, Repr

/-- `DisplayManager::new`: serial 0, empty lists, default properties. -/
def DisplayManager.new : DisplayManager :=
  { serial := 0
    monitors := []
    logicalMonitors := []
    properties := DisplayManagerProperties.new }

/-- `DisplayManager::get_disabled_monitors`: store monitors not contained in
`active_mons` under `Monitor`'s `PartialEq` (description equality). -/
def DisplayManager.getDisabledMonitors (self : DisplayManager)
    (activeMons : List Monitor) : List Monitor :=
  self.monitors.filter (fun mon => !(activeMons.any (fun a => Monitor.req a mon)))

/-- `DisplayServer::get_current_state`: a clone of the locked manager, no
side effect. -/
def DisplayServer.getCurrentState (manager : DisplayManager) : DisplayManager :=
  manager

/-- One structured line of a kanshi profile file, one constructor per
`writeln!` in `apply_monitors_config` / `save_kanshi`:
`profile {`, the enable directive, the disable directive, `}`. -/
inductive ProfileLine
  | header
  | enable (dpyName : String) (mode : String) (xPos yPos : Int)
      (transform : String) (scale : Rat)
  | disable (dpyName : String)
  | footer
deriving DecidableEq, Repr

/-- The profile directory: file name to content (list of lines). -/
abbrev FS := List (String × List ProfileLine)

/-- Create-or-replace a file's content (`File::options().create(true)
.write(true).truncate(true)` followed by writes). -/
def FS.set : FS → String → List ProfileLine → FS
  | [], name, content => [(name, content)]
  | (n, c) :: rest, name, content =>
    if n == name then (name, content) :: rest
    else (n, c) :: FS.set rest name content

/-- Read a file's content. -/
def FS.read : FS → String → Option (List ProfileLine)
  | [], _ => none
  | (n, c) :: rest, name => if n == name then some c else FS.read rest name

/-- `.replace(" ", "_")` for the single-character pattern: every space
becomes an underscore (equivalent to the Rust call, written charwise so the
kernel can evaluate it). -/
def underscored (s : String) : String :=
  String.mk (s.data.map (fun c => if c = ' ' then '_' else c))

/-- The key the profile-name computation sorts and joins:
`search_monitor(..).unwrap().get_dpy_name().replace(" ", "_")`. Only
meaningful when the entry resolves (otherwise the Rust closure panics,
handled by the caller). -/
def applyKey (storeMonitors : List Monitor) (mon : MonitorApply) : Option String :=
  (mon.searchMonitor storeMonitors).map (fun m => underscored m.getDpyName)

/-- Insert a string into a (sorted) list of strings, keeping order. -/
def insertStr (s : String) : List String → List String
  | [] => [s]
  | x :: xs => if s ≤ x then s :: x :: xs else x :: insertStr s xs

/-- Sort a list of strings (insertion sort). The Rust code runs the stable
`sort_by_key`; on plain string keys any correct sort yields the same list,
since equal keys are indistinguishable values. -/
def sortStrings : List String → List String
  | [] => []
  | x :: xs => insertStr x (sortStrings xs)

/-- The profile file name: the display-name keys of the entries, sorted and
joined with `"__"` (sorting the entry list by key and then mapping the key
over it equals sorting the mapped keys). -/
def profileFileName (storeMonitors : List Monitor) (entries : List MonitorApply) :
    String :=
  String.intercalate "__" (sortStrings (entries.filterMap (applyKey storeMonitors)))

/-- The first validation error of the verify loop (`method == 0` branch):
each entry is checked in order and the first `Err` is returned. -/
def firstVerifyError (entries : List MonitorApply) (monitors : List Monitor) :
    Option ZError :=
  entries.findSome? (fun e =>
    match e.verify monitors with
    | Except.ok _ => none
    | Except.error z => some z)

/-- The monitors the entries resolve to (`active_mons` in the source). -/
def acceptedMonitors (storeMonitors : List Monitor) (entries : List MonitorApply) :
    List Monitor :=
  entries.filterMap (fun m => m.searchMonitor storeMonitors)

/-- The enable directives of the profile buffer, one `save_kanshi` line per
entry whose mode resolves (an entry with an unresolvable mode is silently
skipped). -/
def enableLinesOf (storeMonitors : List Monitor) (entries : List MonitorApply) :
    List ProfileLine :=
  entries.filterMap (fun m =>
    (m.searchMonitor storeMonitors).bind (fun mon =>
      (m.saveKanshi mon).map (fun l =>
        ProfileLine.enable l.1 l.2.1 l.2.2.1 l.2.2.2.1 l.2.2.2.2.1 l.2.2.2.2.2)))

/-- Outcome of one `apply_monitors_config` call: normal return (`Ok` or a
`zbus::fdo` error) or a Rust panic. -/
inductive Outcome
  | panic
  | ok
  | err (e : ZError)
deriving DecidableEq, Repr

/-- Result of one `apply_monitors_config` call: outcome plus the manager
state and profile directory after the call (for `panic`, at the moment the
process died). -/
structure ApplyResult where
  outcome : Outcome
  manager : DisplayManager
  fs : FS
deriving DecidableEq, Repr

/-- `DisplayServer::apply_monitors_config` from lib.rs, in source order:
1. serial guard (`Wrong serial` on mismatch, nothing touched);
2. profile-name computation — `sort_by_key` / `map` call
   `search_monitor(..).unwrap()` on every entry, so any unresolvable
   connector panics here, for every method;
3. the profile file is opened with create+truncate — for every method,
   before any validation;
4. `method == 0`: run `verify` per entry, return the first error, else `Ok`
   (the file stays truncated);
5. `method != 0`: build enable lines (`save_kanshi`), disable lines
   (`get_disabled_monitors`), replace `properties`, then perform the single
   buffered write — `writeOk` is the outcome the filesystem produced; on
   failure return `IOError` with the file still truncated. -/
def applyMonitorsConfig (st : DisplayManager) (fs : FS) (serial method : Nat)
    (logicalMonitors : List MonitorApply) (properties : DisplayManagerProperties)
    (writeOk : Bool) : ApplyResult :=
  if serial ≠ st.serial then
    { outcome := Outcome.err (ZError.invalidArgs "Wrong serial"), manager := st, fs := fs }
  else if logicalMonitors.any (fun m => (m.searchMonitor st.monitors).isNone) then
    { outcome := Outcome.panic, manager := st, fs := fs }
  else
    let profileName := profileFileName st.monitors logicalMonitors
    let fs1 := FS.set fs profileName []
    if method = 0 then
      match firstVerifyError logicalMonitors st.monitors with
      | some e => { outcome := Outcome.err e, manager := st, fs := fs1 }
      | none => { outcome := Outcome.ok, manager := st, fs := fs1 }
    else
      let activeMons := acceptedMonitors st.monitors logicalMonitors
      let enableLines := enableLinesOf st.monitors logicalMonitors
      let disableLines := (st.getDisabledMonitors activeMons).map
        (fun mon => ProfileLine.disable mon.getDpyName)
      let profileBuf := ProfileLine.header ::
        (enableLines ++ disableLines ++ [ProfileLine.footer])
      let st1 := { st with properties := properties }
      if writeOk then
        { outcome := Outcome.ok, manager := st1, fs := FS.set fs1 profileName profileBuf }
      else
        { outcome := Outcome.err (ZError.ioError "write error"), manager := st1, fs := fs1 }

/-- The watcher's loop-local state: the previous monitor / logical-monitor
sets plus the shared manager. -/
structure WatchState where
  prevMonitorSet : List Monitor
  prevLogicalMonitorSet : List LogicalMonitor
  manager : DisplayManager
deriving DecidableEq, Repr

/-- `HashSet<Monitor>::contains`: `Monitor`'s `Hash` covers the description
and the current mode string while `Eq` covers the description only, so a
lookup finds an element exactly when both the description and the current
mode match (a monitor whose active mode changed lands in another bucket). -/
def monitorSetContains (s : List Monitor) (m : Monitor) : Bool :=
  s.any (fun e => e.description == m.description && e.getCurrentMode == m.getCurrentMode)

/-- `HashSet<LogicalMonitor>::contains`: `Hash` covers `(y, x, transform,
scale, monitors[0])`, `Eq` covers `(x, y, scale, transform)`; a lookup finds
an element exactly when both agree. -/
def logicalSetContains (s : List LogicalMonitor) (m : LogicalMonitor) : Bool :=
  s.any (fun e => LogicalMonitor.req e m && e.monitors.head? == m.monitors.head?)

/-- One iteration of `DisplayManager::watch_changes` after the sleep.
`query` is the sway `get_monitor_info` result; the source immediately
`unwrap()`s it, so an `Err` (modelled `none`) panics — result `none`.
Otherwise: an element of either fresh list missing from the corresponding
previous set marks the snapshot changed; on change the previous sets and the
manager's two lists are replaced and the signal is emitted (`true`). -/
def watchIteration (ws : WatchState)
    (query : Option (List Monitor × List LogicalMonitor)) :
    Option (WatchState × Bool) :=
  match query with
  | none => none
  | some (monitors, logicalMonitors) =>
    let monitorsChanged :=
      monitors.any (fun m => !(monitorSetContains ws.prevMonitorSet m)) ||
      logicalMonitors.any (fun lm => !(logicalSetContains ws.prevLogicalMonitorSet lm))
    if monitorsChanged then
      some ({ prevMonitorSet := monitors
              prevLogicalMonitorSet := logicalMonitors
              manager := { ws.manager with
                monitors := monitors
                logicalMonitors := logicalMonitors } }, true)
    else
      some (ws, false)

/-- Every way the daemon's code mutates (or reads) the manager: a
`GetCurrentState` call, an `ApplyMonitorsConfig` call with arbitrary
arguments and environment behaviour, or a completed watcher iteration. -/
inductive Step : DisplayManager → DisplayManager → Prop
  | getCurrentState (st : DisplayManager) : Step st st
  | applyConfig (st : DisplayManager) (fs : FS) (serial method : Nat)
      (entries : List MonitorApply) (props : DisplayManagerProperties)
      (writeOk : Bool) :
      Step st (applyMonitorsConfig st fs serial method entries props writeOk).manager
  | watch (st : DisplayManager) (prevM : List Monitor)
      (prevL : List LogicalMonitor)
      (query : Option (List Monitor × List LogicalMonitor))
      (ws' : WatchState) (b : Bool)
      (h : watchIteration ⟨prevM, prevL, st⟩ query = some (ws', b)) :
      Step st ws'.manager

/-- Manager states reachable from startup (`DisplayManager::new`). -/
def Reachable (st : DisplayManager) : Prop :=
  Relation.ReflTransGen Step DisplayManager.new st


/-- Properties fixture used by the concrete test store. -/
def testProps : MonitorProperties :=
  { width := some 1920, height := some 1080, underscanning := none,
    builtin := some true, maxSize := none, name := some "ACME Panel 123" }

/-- Mode fixture: 1920x1080@60Hz with supported scales [1, 2]. -/
def testMode : Modes :=
  { id := "1920x1080@60Hz", width := 1920, height := 1080, refreshRate := 60,
    preferredScale := 1, supportedScales := [1, 2],
    properties := { current := some true, preferred := some false, interlaced := some false } }

/-- Store monitor fixture on connector eDP-1. -/
def testMonitorA : Monitor :=
  { description := ⟨"eDP-1", "ACME", "Panel", "123"⟩, modes := [testMode],
    properties := testProps }

/-- Store fixture: serial 0, one monitor. -/
def testStore : DisplayManager :=
  { serial := 0, monitors := [testMonitorA], logicalMonitors := [],
    properties := DisplayManagerProperties.new }

/-- A fully valid apply entry for `testMonitorA`. -/
def testEntry : MonitorApply :=
  { xPos := 0, yPos := 0, scale := 1, transform := 0, primary := false,
    monitors := [("eDP-1", "1920x1080@60Hz", testProps)] }

/-- Profile directory fixture holding a previously written profile for the
same hardware combination. -/
def testFs : FS := [("ACME_Panel_123", [ProfileLine.header, ProfileLine.footer])]

/-- Entry with a scale (3) outside the supported scales [1, 2]. -/
def testEntryBadScale : MonitorApply := { testEntry with scale := 3 }

/-- Entry referencing a connector absent from the store. -/
def testEntryUnknown : MonitorApply :=
  { testEntry with monitors := [("HDMI-A-9", "1920x1080@60Hz", testProps)] }

/-- Entry referencing a mode id absent from the monitor. -/
def testEntryBadMode : MonitorApply :=
  { testEntry with monitors := [("eDP-1", "800x600@60Hz", testProps)] }

/-- C1: a call with a serial different from the current serial of the
store fails with the Wrong-serial (StaleSerial) error and returns the
manager state and profile directory exactly as they were. -/
theorem applyMonitorsConfig_stale_serial_rejected
    (st : DisplayManager) (fs : FS) (serial method : Nat)
    (entries : List MonitorApply) (props : DisplayManagerProperties) (writeOk : Bool)
    (h : serial ≠ st.serial) :
    applyMonitorsConfig st fs serial method entries props writeOk =
      { outcome := Outcome.err (ZError.invalidArgs "Wrong serial")
        manager := st
        fs := fs } := by
  unfold applyMonitorsConfig
  simp [h]

theorem applyMonitorsConfig_stale_serial_rejected_witness :
    (1 : Nat) ≠ testStore.serial ∧
    applyMonitorsConfig testStore testFs 1 1 [testEntry] DisplayManagerProperties.new true =
      { outcome := Outcome.err (ZError.invalidArgs "Wrong serial")
        manager := testStore
        fs := testFs } :=
  ⟨by decide,
   applyMonitorsConfig_stale_serial_rejected testStore testFs 1 1 [testEntry]
     DisplayManagerProperties.new true (by decide)⟩

/-- C2: a Verify call (method 0) whose entries all validate returns Ok and
leaves the manager untouched, but the profile file for the addressed
hardware combination is truncated to empty by the create+truncate open that
the code performs before the method check. -/
theorem verify_truncates_profile_file :
    (applyMonitorsConfig testStore testFs 0 0 [testEntry]
        DisplayManagerProperties.new true).outcome = Outcome.ok ∧
    firstVerifyError [testEntry] testStore.monitors = none ∧
    FS.read testFs "ACME_Panel_123" = some [ProfileLine.header, ProfileLine.footer] ∧
    FS.read (applyMonitorsConfig testStore testFs 0 0 [testEntry]
        DisplayManagerProperties.new true).fs "ACME_Panel_123" = some [] ∧
    (applyMonitorsConfig testStore testFs 0 0 [testEntry]
        DisplayManagerProperties.new true).manager = testStore := by decide

/-- C4: the transform codec does not round-trip: the compositor string
"90" maps through `from_sway` then `to_sway` to "270", and the variant
with discriminant 1 (`Left`) maps through `to_sway` then `from_sway` to
the variant with discriminant 3 (`Right`). -/
theorem transform_roundtrip_violated :
    MonitorTransform.toSway (MonitorTransform.fromSway (some "90")) = "270" ∧
    MonitorTransform.fromSway (some (MonitorTransform.toSway MonitorTransform.left)) =
      MonitorTransform.right ∧
    MonitorTransform.toU32
      (MonitorTransform.fromSway (some (MonitorTransform.toSway
        ((MonitorTransform.fromU32 1).getD MonitorTransform.normal)))) = 3 := by
  decide

/-- C5: a non-Verify call whose final buffered write fails returns an
IOError, but the previously existing profile content has already been
destroyed by the create+truncate open, and the store properties have
already been replaced before the write. -/
theorem write_failure_truncates_and_mutates :
    (applyMonitorsConfig testStore testFs 0 1 [testEntry]
        { layout := some 2, supportLayoutChange := some false,
          globalScale := some true, legacyScaleFactor := some 2 } false).outcome =
      Outcome.err (ZError.ioError "write error") ∧
    FS.read testFs "ACME_Panel_123" = some [ProfileLine.header, ProfileLine.footer] ∧
    FS.read (applyMonitorsConfig testStore testFs 0 1 [testEntry]
        { layout := some 2, supportLayoutChange := some false,
          globalScale := some true, legacyScaleFactor := some 2 } false).fs
      "ACME_Panel_123" = some [] ∧
    (applyMonitorsConfig testStore testFs 0 1 [testEntry]
        { layout := some 2, supportLayoutChange := some false,
          globalScale := some true, legacyScaleFactor := some 2 } false).manager.properties =
      { layout := some 2, supportLayoutChange := some false,
        globalScale := some true, legacyScaleFactor := some 2 } ∧
    testStore.properties ≠
      { layout := some 2, supportLayoutChange := some false,
        globalScale := some true, legacyScaleFactor := some 2 } := by decide

/-- C6: a request referencing a connector that matches no store monitor
panics (the profile-name closure unwraps the failed lookup) instead of
returning a MonitorNotFound error. -/
theorem unknown_connector_panics :
    testEntryUnknown.searchMonitor testStore.monitors = none ∧
    (applyMonitorsConfig testStore testFs 0 2 [testEntryUnknown]
        DisplayManagerProperties.new true).outcome = Outcome.panic ∧
    (applyMonitorsConfig testStore testFs 0 0 [testEntryUnknown]
        DisplayManagerProperties.new true).outcome = Outcome.panic := by decide

/-- C9: a watcher iteration whose compositor query fails panics (the
source unwraps the query result) instead of retaining the previous
snapshot and continuing. -/
theorem watchIteration_panics_on_query_error (ws : WatchState) :
    watchIteration ws none = none := rfl

/-- C3 counterexample: with method 1 an entry whose scale fails the Verify
validation rules is accepted: the call returns Ok and persists the invalid
scale in the profile instead of aborting. -/
theorem apply_accepts_invalid_scale :
    MonitorApply.verify testEntryBadScale [testMonitorA] =
      Except.error (ZError.invalidArgs "Invalid scale") ∧
    (applyMonitorsConfig testStore testFs 0 1 [testEntryBadScale]
        DisplayManagerProperties.new true).outcome = Outcome.ok ∧
    FS.read (applyMonitorsConfig testStore testFs 0 1 [testEntryBadScale]
        DisplayManagerProperties.new true).fs "ACME_Panel_123" =
      some [ProfileLine.header,
        ProfileLine.enable "ACME Panel 123" "1920x1080@60Hz" 0 0 "normal" 3,
        ProfileLine.footer] := by decide


/-- C3 amended: with a non-Verify method the request runs no validation at
all: whenever every entry resolves to a store monitor and the write
succeeds, the call returns Ok, whatever the verify rules would have said
about the entries. -/
theorem apply_path_never_validates
    (st : DisplayManager) (fs : FS) (method : Nat) (entries : List MonitorApply)
    (props : DisplayManagerProperties)
    (hm : method ≠ 0)
    (hr : ∀ e ∈ entries, (e.searchMonitor st.monitors).isSome = true) :
    (applyMonitorsConfig st fs st.serial method entries props true).outcome =
      Outcome.ok := by
  have h2 : (entries.any fun m => (m.searchMonitor st.monitors).isNone) = false := by
    simp only [List.any_eq_false]
    intro e he
    have h := hr e he
    cases hx : e.searchMonitor st.monitors with
    | none => rw [hx] at h; simp at h
    | some m => simp [hx]
  unfold applyMonitorsConfig
  rw [if_neg (by simp), if_neg (by simp [h2]), if_neg hm]
  simp

theorem apply_path_never_validates_witness :
    ((1 : Nat) ≠ 0) ∧
    (∀ e ∈ [testEntryBadScale], (e.searchMonitor testStore.monitors).isSome = true) ∧
    (applyMonitorsConfig testStore testFs testStore.serial 1 [testEntryBadScale]
        DisplayManagerProperties.new true).outcome = Outcome.ok :=
  ⟨by decide, by decide,
   apply_path_never_validates testStore testFs 1 [testEntryBadScale]
     DisplayManagerProperties.new (by decide) (by decide)⟩

/-- `from_u32` returns `None` exactly outside the eight discriminants. -/
theorem fromU32_eq_none_iff (t : Nat) : MonitorTransform.fromU32 t = none ↔ 8 ≤ t := by
  constructor
  · intro h
    by_contra hlt
    push_neg at hlt
    interval_cases t <;> simp [MonitorTransform.fromU32] at h
  · intro h
    obtain ⟨k, rfl⟩ : ∃ k, t = k + 8 := ⟨t - 8, by omega⟩
    rfl

/-- The per-rule characterization of `MonitorApply::verify` against an
already-resolved monitor: which input makes it return which error, in the
order the source checks them. The missing-mode failure is reported with the
message "Invalid position"; the message "Invalid resolution / refresh rate"
is unreachable; the transform range is 0..=7. -/
def VerifySpec (e : MonitorApply) (ms : List Monitor) (monitor : Monitor) : Prop :=
  ((e.verify ms = Except.error (ZError.invalidArgs "Invalid position")) ↔
      monitor.searchModes e.modeRef0 = none) ∧
  ((e.verify ms = Except.error (ZError.invalidArgs "Invalid scale")) ↔
      ∃ mode, monitor.searchModes e.modeRef0 = some mode ∧
        mode.isValidScale e.scale = false) ∧
  ((e.verify ms = Except.error (ZError.invalidArgs "Invalid tranform")) ↔
      ∃ mode, monitor.searchModes e.modeRef0 = some mode ∧
        mode.isValidScale e.scale = true ∧ 8 ≤ e.transform) ∧
  ((e.verify ms = Except.ok ()) ↔
      ∃ mode, monitor.searchModes e.modeRef0 = some mode ∧
        mode.isValidScale e.scale = true ∧ e.transform < 8) ∧
  (∀ msg, e.verify ms = Except.error (ZError.invalidArgs msg) →
      msg = "Invalid position" ∨ msg = "Invalid scale" ∨ msg = "Invalid tranform")

/-- C7 amended: the validation rules fire in order (mode membership, scale
membership, transform range) and each failure is reported with a distinct
message, but the missing-mode case is reported as "Invalid position" — the
dedicated mode error is dead code. -/
theorem verify_rule_characterization (e : MonitorApply) (ms : List Monitor)
    (monitor : Monitor) (h : e.searchMonitor ms = some monitor) :
    VerifySpec e ms monitor := by
  unfold VerifySpec
  cases hm : monitor.searchModes e.modeRef0 with
  | none =>
    have hv : e.verify ms = Except.error (ZError.invalidArgs "Invalid position") := by
      unfold MonitorApply.verify
      rw [h]
      simp [MonitorApply.getModestr, hm]
    refine ⟨by simp [hv], ?_, ?_, by simp [hv], ?_⟩
    · simp [hv, hm]
    · simp [hv, hm]
    · intro msg hmsg
      rw [hv] at hmsg
      simp at hmsg
      simp [hmsg]
  | some mode =>
    cases hs : mode.isValidScale e.scale with
    | false =>
      have hv : e.verify ms = Except.error (ZError.invalidArgs "Invalid scale") := by
        unfold MonitorApply.verify
        rw [h]
        simp [MonitorApply.getModestr, hm, hs]
      refine ⟨by simp [hv, hm], ?_, ?_, ?_, ?_⟩
      · exact ⟨fun _ => ⟨mode, rfl, hs⟩, fun _ => hv⟩
      · constructor
        · intro hcon
          rw [hv] at hcon
          simp at hcon
        · rintro ⟨mode2, hm2, hval, h8⟩
          injection hm2 with he
          subst he
          rw [hs] at hval
          exact Bool.noConfusion hval
      · constructor
        · intro hcon
          rw [hv] at hcon
          simp at hcon
        · rintro ⟨mode2, hm2, hval, h8⟩
          injection hm2 with he
          subst he
          rw [hs] at hval
          exact Bool.noConfusion hval
      · intro msg hmsg
        rw [hv] at hmsg
        simp at hmsg
        simp [hmsg]
    | true =>
      cases ht : MonitorTransform.fromU32 e.transform with
      | none =>
        have hv : e.verify ms = Except.error (ZError.invalidArgs "Invalid tranform") := by
          unfold MonitorApply.verify
          rw [h]
          simp [MonitorApply.getModestr, hm, hs, ht]
        have h8 : 8 ≤ e.transform := (fromU32_eq_none_iff e.transform).mp ht
        refine ⟨by simp [hv, hm], by simp [hv, hm, hs], ?_, ?_, ?_⟩
        · simp [hv, hm, hs, h8]
        · simp [hv, hm, hs]
          omega
        · intro msg hmsg
          rw [hv] at hmsg
          simp at hmsg
          simp [hmsg]
      | some tr =>
        have hv : e.verify ms = Except.ok () := by
          unfold MonitorApply.verify
          rw [h]
          simp [MonitorApply.getModestr, hm, hs, ht]
        have h8 : e.transform < 8 := by
          by_contra hge
          push_neg at hge
          rw [(fromU32_eq_none_iff e.transform).mpr hge] at ht
          exact Option.noConfusion ht
        refine ⟨by simp [hv], ?_, ?_, ?_, ?_⟩
        · constructor
          · intro hcon
            rw [hv] at hcon
            simp at hcon
          · rintro ⟨mode2, hm2, hval⟩
            injection hm2 with he
            subst he
            rw [hs] at hval
            exact Bool.noConfusion hval
        · constructor
          · intro hcon
            rw [hv] at hcon
            simp at hcon
          · rintro ⟨mode2, hm2, hval, hge⟩
            omega
        · exact ⟨fun _ => ⟨mode, rfl, hs, h8⟩, fun _ => hv⟩
        · intro msg hmsg
          rw [hv] at hmsg
          exact Except.noConfusion hmsg

theorem verify_rule_characterization_witness :
    testEntry.searchMonitor [testMonitorA] = some testMonitorA ∧
    VerifySpec testEntry [testMonitorA] testMonitorA :=
  ⟨by decide, verify_rule_characterization testEntry [testMonitorA] testMonitorA (by decide)⟩

/-- C7 counterexample: a request whose mode reference is absent from the
Mode list of the resolved monitor is rejected with the message
"Invalid position"; the mode-identifying message is never produced. -/
theorem invalid_mode_reported_as_invalid_position :
    testEntryBadMode.searchMonitor [testMonitorA] = some testMonitorA ∧
    testMonitorA.searchModes testEntryBadMode.modeRef0 = none ∧
    MonitorApply.verify testEntryBadMode [testMonitorA] =
      Except.error (ZError.invalidArgs "Invalid position") ∧
    MonitorApply.verify testEntryBadMode [testMonitorA] ≠
      Except.error (ZError.invalidArgs "Invalid resolution / refresh rate") := by
  decide


/-- The manager returned by `applyMonitorsConfig` carries the serial of the
input manager unchanged, on every path. -/
theorem applyMonitorsConfig_manager_serial (st : DisplayManager) (fs : FS)
    (serial method : Nat) (entries : List MonitorApply)
    (props : DisplayManagerProperties) (writeOk : Bool) :
    (applyMonitorsConfig st fs serial method entries props writeOk).manager.serial =
      st.serial := by
  unfold applyMonitorsConfig
  dsimp only
  repeat' (first | rfl | split)

/-- A completed watcher iteration carries the serial of the input manager
unchanged. -/
theorem watchIteration_manager_serial {ws : WatchState}
    {query : Option (List Monitor × List LogicalMonitor)}
    {ws' : WatchState} {b : Bool}
    (h : watchIteration ws query = some (ws', b)) :
    ws'.manager.serial = ws.manager.serial := by
  unfold watchIteration at h
  cases query with
  | none => exact Option.noConfusion h
  | some q =>
    cases q with
    | mk monitors logicalMonitors =>
      simp only [] at h
      split at h
      · injection h with h1
        injection h1 with h2 h3
        rw [← h2]
      · injection h with h1
        injection h1 with h2 h3
        rw [← h2]

/-- Every step of the daemon preserves the serial. -/
theorem step_preserves_serial {st st' : DisplayManager} (h : Step st st') :
    st'.serial = st.serial := by
  cases h with
  | getCurrentState => rfl
  | applyConfig fs serial method entries props writeOk =>
    exact applyMonitorsConfig_manager_serial st fs serial method entries props writeOk
  | watch prevM prevL query ws' b hw =>
    exact watchIteration_manager_serial hw

/-- Every reachable manager state has serial 0. -/
theorem reachable_serial_zero {st : DisplayManager} (h : Reachable st) :
    st.serial = 0 := by
  induction h with
  | refl => rfl
  | tail _ hstep ih => rw [step_preserves_serial hstep, ih]

/-- `verify` never produces the Wrong-serial error. -/
theorem verify_ne_wrong_serial (e : MonitorApply) (ms : List Monitor) :
    e.verify ms ≠ Except.error (ZError.invalidArgs "Wrong serial") := by
  unfold MonitorApply.verify
  split
  · intro h
    simp at h
  · split
    · intro h
      simp at h
    · split
      · intro h
        simp at h
      · split
        · intro h
          simp at h
        · split
          · intro h
            simp at h
          · intro h
            exact Except.noConfusion h

/-- If the verify loop reports an error it is the `verify` result of one of
the entries. -/
theorem firstVerifyError_mem {es : List MonitorApply} {ms : List Monitor}
    {z : ZError} (h : firstVerifyError es ms = some z) :
    ∃ e ∈ es, e.verify ms = Except.error z := by
  induction es with
  | nil => simp [firstVerifyError] at h
  | cons a t ih =>
    unfold firstVerifyError at h
    rw [List.findSome?_cons] at h
    cases hv : MonitorApply.verify a ms with
    | error z2 =>
      rw [hv] at h
      simp only [] at h
      injection h with hz
      exact ⟨a, by simp, by rw [hv, hz]⟩
    | ok u =>
      rw [hv] at h
      simp only [] at h
      obtain ⟨e, he, hev⟩ := ih h
      exact ⟨e, by simp [he], hev⟩

/-- C10: the serial is 0 at startup and no operation ever changes it:
every reachable store has serial 0, `GetCurrentState` reports serial 0,
every step out of a reachable state keeps serial 0, and an
`ApplyMonitorsConfig` call fails on the serial guard exactly when the
supplied serial is not 0. -/
theorem serial_constant_zero (st : DisplayManager) (h : Reachable st)
    (fs : FS) (serial method : Nat) (entries : List MonitorApply)
    (props : DisplayManagerProperties) (writeOk : Bool) :
    DisplayManager.new.serial = 0 ∧
    st.serial = 0 ∧
    (DisplayServer.getCurrentState st).serial = 0 ∧
    (∀ st', Step st st' → st'.serial = 0) ∧
    ((applyMonitorsConfig st fs serial method entries props writeOk).outcome =
        Outcome.err (ZError.invalidArgs "Wrong serial") ↔ serial ≠ 0) := by
  have hz : st.serial = 0 := reachable_serial_zero h
  refine ⟨rfl, hz, hz, ?_, ?_⟩
  · intro st' hstep
    rw [step_preserves_serial hstep, hz]
  · constructor
    · intro hout
      intro hzero
      subst hzero
      revert hout
      unfold applyMonitorsConfig
      rw [if_neg (by omega)]
      split
      · intro hout
        exact Outcome.noConfusion hout
      · split
        · split
          · rename_i e he
            intro hout
            injection hout with hout1
            obtain ⟨e2, _, hev⟩ := firstVerifyError_mem he
            rw [hout1] at hev
            exact verify_ne_wrong_serial e2 _ hev
          · intro hout
            exact Outcome.noConfusion hout
        · split
          · intro hout
            exact Outcome.noConfusion hout
          · intro hout
            injection hout with hout1
            exact ZError.noConfusion hout1
    · intro hne
      unfold applyMonitorsConfig
      rw [if_pos (by omega)]

end RegolithDisplayd
namespace RegolithDisplayd

theorem serial_constant_zero_witness :
    Reachable DisplayManager.new ∧
    (DisplayManager.new.serial = 0 ∧
     DisplayManager.new.serial = 0 ∧
     (DisplayServer.getCurrentState DisplayManager.new).serial = 0 ∧
     (∀ st', Step DisplayManager.new st' → st'.serial = 0) ∧
     ((applyMonitorsConfig DisplayManager.new [] 1 0 []
          DisplayManagerProperties.new true).outcome =
        Outcome.err (ZError.invalidArgs "Wrong serial") ↔ (1 : Nat) ≠ 0)) :=
  ⟨Relation.ReflTransGen.refl,
   serial_constant_zero DisplayManager.new Relation.ReflTransGen.refl [] 1 0 []
     DisplayManagerProperties.new true⟩

/-- Reading back a just-written file returns the written content. -/
theorem FS.read_set (fs : FS) (name : String) (content : List ProfileLine) :
    FS.read (FS.set fs name content) name = some content := by
  induction fs with
  | nil => simp [FS.set, FS.read]
  | cons p rest ih =>
    obtain ⟨n, c⟩ := p
    unfold FS.set
    by_cases hn : n = name
    · subst hn
      simp [FS.read]
    · rw [if_neg (by simpa using hn)]
      unfold FS.read
      rw [if_neg (by simpa using hn)]
      exact ih

/-- Counting an image under an injective-by-construction line constructor
inside a filtered map: a store monitor contributes exactly one line when the
filter keeps it and none otherwise, provided display names are distinct. -/
theorem count_disable_filter (l : List Monitor) (p : Monitor → Bool) (m : Monitor)
    (hn : (l.map Monitor.getDpyName).Nodup) (hm : m ∈ l) :
    (((l.filter p).map (fun mon => ProfileLine.disable mon.getDpyName)).count
        (ProfileLine.disable m.getDpyName)) = if p m then 1 else 0 := by
  induction l with
  | nil => cases hm
  | cons a t ih =>
    rw [List.map_cons, List.nodup_cons] at hn
    obtain ⟨hna, hnt⟩ := hn
    have hsub : ∀ x, x ∈ (t.filter p).map Monitor.getDpyName →
        x ∈ t.map Monitor.getDpyName := by
      intro x hx
      obtain ⟨b, hb, rfl⟩ := List.mem_map.mp hx
      exact List.mem_map_of_mem Monitor.getDpyName (List.mem_of_mem_filter hb)
    rcases List.mem_cons.mp hm with rfl | hmt
    · rw [List.filter_cons]
      have hzero : ((t.filter p).map
          (fun mon => ProfileLine.disable mon.getDpyName)).count
            (ProfileLine.disable m.getDpyName) = 0 := by
        rw [List.count_eq_zero]
        intro hc
        obtain ⟨b, hb, hbeq⟩ := List.mem_map.mp hc
        injection hbeq with he
        exact hna (he ▸ hsub _ (List.mem_map_of_mem Monitor.getDpyName hb))
      by_cases hp : p m
      · rw [if_pos hp, if_pos hp, List.map_cons, List.count_cons, hzero]
        simp
      · rw [if_neg (by simpa using hp), if_neg hp]
        exact hzero
    · have hne : m.getDpyName ≠ a.getDpyName := by
        intro hc
        exact hna (hc ▸ List.mem_map_of_mem Monitor.getDpyName hmt)
      rw [List.filter_cons]
      by_cases hp : p a
      · rw [if_pos hp, List.map_cons, List.count_cons]
        have : (ProfileLine.disable a.getDpyName ==
            ProfileLine.disable m.getDpyName) = false := by
          simp
          intro hc
          exact hne hc.symm
        rw [this]
        simp [ih hnt hmt]
      · rw [if_neg (by simpa using hp)]
        exact ih hnt hmt

/-- No disable line occurs among the enable lines. -/
theorem disable_not_mem_enableLines (storeMonitors : List Monitor)
    (entries : List MonitorApply) (name : String) :
    ProfileLine.disable name ∉ enableLinesOf storeMonitors entries := by
  intro hmem
  obtain ⟨e, he, heq⟩ := List.mem_filterMap.mp hmem
  cases hs : e.searchMonitor storeMonitors with
  | none =>
    rw [hs] at heq
    exact Option.noConfusion heq
  | some mon =>
    rw [hs] at heq
    dsimp only [Option.bind] at heq
    cases hk : e.saveKanshi mon with
    | none =>
      rw [hk] at heq
      exact Option.noConfusion heq
    | some l =>
      rw [hk] at heq
      simp at heq

/-- C8: for a successful non-Verify call the disable directives of the
written profile are exactly the store monitors outside the accepted set
(identity: the description tuple, via the `PartialEq` of `Monitor`): one
disable line per excluded store monitor, none for an accepted one, and no
disable line that does not come from a store monitor. -/
theorem apply_disable_set_is_store_minus_accepted (st : DisplayManager)
    (fs : FS) (method : Nat) (entries : List MonitorApply)
    (props : DisplayManagerProperties)
    (hm : method ≠ 0)
    (hr : ∀ e ∈ entries, (e.searchMonitor st.monitors).isSome = true)
    (hn : (st.monitors.map Monitor.getDpyName).Nodup) :
    (applyMonitorsConfig st fs st.serial method entries props true).outcome =
      Outcome.ok ∧
    (FS.read (applyMonitorsConfig st fs st.serial method entries props true).fs
        (profileFileName st.monitors entries)).isSome = true ∧
    ∀ lines,
      FS.read (applyMonitorsConfig st fs st.serial method entries props true).fs
          (profileFileName st.monitors entries) = some lines →
      (∀ m ∈ st.monitors,
        lines.count (ProfileLine.disable m.getDpyName) =
          if (acceptedMonitors st.monitors entries).any (fun a => Monitor.req a m)
          then 0 else 1) ∧
      (∀ name, ProfileLine.disable name ∈ lines →
        ∃ m, m ∈ st.monitors ∧ m.getDpyName = name ∧
          (acceptedMonitors st.monitors entries).any (fun a => Monitor.req a m) =
            false) := by
  have h2 : (entries.any fun m => (m.searchMonitor st.monitors).isNone) = false := by
    simp only [List.any_eq_false]
    intro e he
    have h := hr e he
    cases hx : e.searchMonitor st.monitors with
    | none => rw [hx] at h; simp at h
    | some m => simp [hx]
  have happly : applyMonitorsConfig st fs st.serial method entries props true =
      { outcome := Outcome.ok
        manager := { st with properties := props }
        fs := FS.set (FS.set fs (profileFileName st.monitors entries) [])
          (profileFileName st.monitors entries)
          (ProfileLine.header ::
            (enableLinesOf st.monitors entries ++
              (st.getDisabledMonitors (acceptedMonitors st.monitors entries)).map
                (fun mon => ProfileLine.disable mon.getDpyName) ++
              [ProfileLine.footer])) } := by
    unfold applyMonitorsConfig
    rw [if_neg (by simp), if_neg (by simp [h2]), if_neg hm]
    rfl
  rw [happly]
  refine ⟨rfl, ?_, ?_⟩
  · rw [FS.read_set]
    rfl
  · intro lines hread
    rw [FS.read_set] at hread
    injection hread with hlines
    subst hlines
    constructor
    · intro m hmem
      rw [List.count_cons, List.count_append, List.count_append]
      have he0 : (enableLinesOf st.monitors entries).count
          (ProfileLine.disable m.getDpyName) = 0 :=
        List.count_eq_zero.mpr (disable_not_mem_enableLines st.monitors entries _)
      have hf0 : ([ProfileLine.footer].count (ProfileLine.disable m.getDpyName)) = 0 := by
        simp
      have hh0 : (ProfileLine.header == ProfileLine.disable m.getDpyName) = false := by
        simp
      rw [he0, hf0, hh0]
      unfold DisplayManager.getDisabledMonitors
      rw [count_disable_filter st.monitors _ m hn hmem]
      by_cases ha : (acceptedMonitors st.monitors entries).any
          (fun a => Monitor.req a m)
      · simp [ha]
      · simp [ha]
    · intro name hmem
      rcases List.mem_cons.mp hmem with hc | hc
      · exact ProfileLine.noConfusion hc
      rcases List.mem_append.mp hc with hc2 | hfoot
      rcases List.mem_append.mp hc2 with hen | hdis
      · exact absurd hen (disable_not_mem_enableLines st.monitors entries name)
      · obtain ⟨mon, hmon, hmoneq⟩ := List.mem_map.mp hdis
        injection hmoneq with hname
        unfold DisplayManager.getDisabledMonitors at hmon
        rw [List.mem_filter] at hmon
        obtain ⟨hmem2, hkeep⟩ := hmon
        refine ⟨mon, hmem2, hname, ?_⟩
        cases hany : (acceptedMonitors st.monitors entries).any
            (fun a => Monitor.req a mon)
        · rfl
        · rw [hany] at hkeep
          exact Bool.noConfusion hkeep
      · rcases List.mem_singleton.mp hfoot with hc3
        exact ProfileLine.noConfusion hc3

/-- Second store monitor fixture on another connector, with a distinct
display name. -/
def testMonitorB : Monitor :=
  { description := ⟨"HDMI-A-1", "Dell", "U2720Q", "XYZ"⟩, modes := [testMode],
    properties := testProps }

/-- Store fixture with two monitors. -/
def testStoreAB : DisplayManager :=
  { serial := 0, monitors := [testMonitorA, testMonitorB], logicalMonitors := [],
    properties := DisplayManagerProperties.new }

theorem apply_disable_set_is_store_minus_accepted_witness :
    ((2 : Nat) ≠ 0) ∧
    (∀ e ∈ [testEntry], (e.searchMonitor testStoreAB.monitors).isSome = true) ∧
    (testStoreAB.monitors.map Monitor.getDpyName).Nodup ∧
    ((applyMonitorsConfig testStoreAB testFs testStoreAB.serial 2 [testEntry]
        DisplayManagerProperties.new true).outcome = Outcome.ok ∧
     (FS.read (applyMonitorsConfig testStoreAB testFs testStoreAB.serial 2 [testEntry]
          DisplayManagerProperties.new true).fs
        (profileFileName testStoreAB.monitors [testEntry])).isSome = true ∧
     ∀ lines,
       FS.read (applyMonitorsConfig testStoreAB testFs testStoreAB.serial 2 [testEntry]
            DisplayManagerProperties.new true).fs
          (profileFileName testStoreAB.monitors [testEntry]) = some lines →
       (∀ m ∈ testStoreAB.monitors,
         lines.count (ProfileLine.disable m.getDpyName) =
           if (acceptedMonitors testStoreAB.monitors [testEntry]).any
               (fun a => Monitor.req a m) then 0 else 1) ∧
       (∀ name, ProfileLine.disable name ∈ lines →
         ∃ m, m ∈ testStoreAB.monitors ∧ m.getDpyName = name ∧
           (acceptedMonitors testStoreAB.monitors [testEntry]).any
             (fun a => Monitor.req a m) = false)) :=
  ⟨by decide, by decide, by decide,
   apply_disable_set_is_store_minus_accepted testStoreAB testFs 2 [testEntry]
     DisplayManagerProperties.new (by decide) (by decide) (by decide)⟩

end RegolithDisplayd
